import Mathlib

/-!
Shallow embedding of `src/PieLogger.js` (pretty-pie-log).

The JavaScript source defines two classes:
* `PieLogLevel` — five numeric severity constants and `getLevelStr`;
* `PieLogger` — a facade whose `log` filters by `minimumLogLevel`, formats a
  line with `padEnd`, writes it to the console (optionally colorized through
  `chalk`) and, when `logToFile` is set, appends `line + "\n"` to a write
  stream opened once at construction.

External effects are modelled observably:
* the console write is a returned `ConsoleOutput` value (`chalk.<color>(s)`
  becomes `ConsoleOutput.wrapped color s`, the identity becomes `raw s`);
* the log file is a `FileState`: the list of chunks written to the current
  file, plus the list of backup generations (generation 1 first). The source
  never creates backups — the field exists so that properties about the
  rotated file set can be stated;
* the filesystem calls in `setupLogDirectory` (`mkdirSync`,
  `createWriteStream`) are parametrized by an `FsEnv` saying whether they
  succeed; a JavaScript exception is an `Except` error;
* a synchronously throwing sink (`console.log` or `stream.write` raising) is
  modelled by `logExc`, parametrized by `SinkFaults`; the source has no
  try/catch, so a throw aborts `log` exactly where it occurs.
`util.inspect(details)` is external; `details` is modelled as the already
rendered optional string.
-/

namespace PieLog

/-- Severity constants of class `PieLogLevel` (source lines 9–13). -/
def PieLogLevel.DEBUG : Int := 10

def PieLogLevel.INFO : Int := 20

def PieLogLevel.WARNING : Int := 30

def PieLogLevel.ERROR : Int := 40

def PieLogLevel.CRITICAL : Int := 50

/-- Model of `PieLogLevel.getLevelStr` (source lines 20–35): the `switch` over the five
constants, defaulting to `"UNKNOWN"`. -/
def PieLogLevel.getLevelStr (level : Int) : String :=
  if level = PieLogLevel.DEBUG then "DEBUG"
  else if level = PieLogLevel.INFO then "INFO"
  else if level = PieLogLevel.WARNING then "WARNING"
  else if level = PieLogLevel.ERROR then "ERROR"
  else if level = PieLogLevel.CRITICAL then "CRITICAL"
  else "UNKNOWN"

/-- The chalk color functions used by `consoleLog` (source lines 147–156). -/
inductive ChalkColor where
  | cyan
  | green
  | yellow
  | red
  | magenta
  | white
deriving DecidableEq, Repr

/-- The `colorMapping` object literal (source lines 147–153): a lookup keyed
by numeric level; a missing key is `none` (JS `undefined`). -/
def colorMapping (level : Int) : Option ChalkColor :=
  if level = PieLogLevel.DEBUG then some ChalkColor.cyan
  else if level = PieLogLevel.INFO then some ChalkColor.green
  else if level = PieLogLevel.WARNING then some ChalkColor.yellow
  else if level = PieLogLevel.ERROR then some ChalkColor.red
  else if level = PieLogLevel.CRITICAL then some ChalkColor.magenta
  else none

/-- What `console.log` receives: either `chalk.color(msg)` (an ANSI-wrapped
string) or the string passed through unmodified by `(str) => str`. -/
inductive ConsoleOutput where
  | wrapped : ChalkColor → String → ConsoleOutput
  | raw : String → ConsoleOutput
deriving DecidableEq, Repr

/-- The observable state of the on-disk log file set owned by one logger:
the chunks appended to the current file (in append order) and the backup
generations (generation 1 = most recent first). The source never rotates,
so `backups` is only ever written by a rotation step — which does not exist
in the code. -/
structure FileState where
  currentFile : List String := []
  backups : List (List String) := []
deriving DecidableEq, Repr

/-- An instance of class `PieLogger` after construction: the fields assigned
in the constructor (source lines 67–78) plus the two fields assigned by
`setupLogDirectory` (`logFilePath`, `fileWriteStream`), which stay `none` /
`false` when that method never ran. -/
structure PieLogger where
  loggerName : String
  timezone : String := "UTC"
  timestampPadding : Nat := 30
  logLevelPadding : Nat := 10
  filePathPadding : Nat := 30
  colorful : Bool := true
  minimumLogLevel : Int := PieLogLevel.INFO
  logToFile : Bool := true
  logDirectory : String := "logs"
  logFileSizeLimit : Nat := 32 * 1024 * 1024
  maxBackupFiles : Nat := 2
  startTimestamp : String
  logFilePath : Option String := none
  fileWriteStream : Bool := false
deriving DecidableEq, Repr

/-- JavaScript `String.prototype.padEnd(n)` with the default space filler:
pads on the right up to length `n`, never truncates. -/
def padEnd (s : String) (targetLength : Nat) : String :=
  s ++ String.mk (List.replicate (targetLength - s.length) ' ')

/-- The line built by `PieLogger.log` (source lines 126–135): padded
timestamp, padded level string, padded `[loggerName]`, then `": " + message`,
with the inspected details appended on a new line when present. -/
def formatLog (lg : PieLogger) (timestamp : String) (level : Int)
    (message : String) (details : Option String) : String :=
  let levelStr := padEnd (PieLogLevel.getLevelStr level) lg.logLevelPadding
  let ts := padEnd timestamp lg.timestampPadding
  let filePath := padEnd ("[" ++ lg.loggerName ++ "]") lg.filePathPadding
  let logMessage := ts ++ " " ++ levelStr ++ " " ++ filePath ++ ": " ++ message
  match details with
  | some d => logMessage ++ "\n" ++ d
  | none => logMessage

/-- Model of `PieLogger.consoleLog` (source lines 146–159): when `colorful`, apply
`colorMapping[level] || chalk.white`; otherwise the identity function. -/
def consoleLog (lg : PieLogger) (level : Int) (logMessage : String) :
    ConsoleOutput :=
  if lg.colorful then
    match colorMapping level with
    | some c => ConsoleOutput.wrapped c logMessage
    | none => ConsoleOutput.wrapped ChalkColor.white logMessage
  else ConsoleOutput.raw logMessage

/-- Model of `PieLogger.fileLog` (source lines 165–169): if the write stream exists,
append `logMessage + "\n"` to the current file; otherwise do nothing. There
is no byte counter, no size check and no rotation in the source. -/
def fileLog (lg : PieLogger) (st : FileState) (logMessage : String) :
    FileState :=
  if lg.fileWriteStream then
    { st with currentFile := st.currentFile ++ [logMessage ++ "\n"] }
  else st

/-- Model of `PieLogger.log` (source lines 123–139): return early below
`minimumLogLevel`; otherwise format once, write to the console, and write to
the file when `logToFile`. The console output is `none` exactly when the
early return fired. -/
def log (lg : PieLogger) (st : FileState) (timestamp : String) (level : Int)
    (message : String) (details : Option String) :
    Option ConsoleOutput × FileState :=
  if level < lg.minimumLogLevel then (none, st)
  else
    let fullLog := formatLog lg timestamp level message details
    let consoleOut := consoleLog lg level fullLog
    let st' := if lg.logToFile then fileLog lg st fullLog else st
    (some consoleOut, st')

/-- Whether the underlying console / stream write throws synchronously when
reached (the sinks are external calls; the source wraps neither in
try/catch). -/
structure SinkFaults where
  consoleThrows : Bool := false
  fileThrows : Bool := false
deriving DecidableEq, Repr

/-- Outcome of a `log` call under possibly-throwing sinks: either it ran to
completion, or an exception escaped the call, carrying the console output
produced (if any) and the file state at the moment of the throw. -/
inductive LogOutcome where
  | completed : Option ConsoleOutput → FileState → LogOutcome
  | threw : String → Option ConsoleOutput → FileState → LogOutcome
deriving DecidableEq, Repr

/-- Model of `PieLogger.log` with throwing sinks, following the source control flow
exactly: `consoleLog` runs first (line 137); a throw there aborts the call
before `fileLog` (line 138) is reached; `fileLog` only touches the stream
behind its `if (this.fileWriteStream)` guard, so a missing stream can never
throw. No handler exists anywhere in the class. -/
def logExc (lg : PieLogger) (faults : SinkFaults) (st : FileState)
    (timestamp : String) (level : Int) (message : String)
    (details : Option String) : LogOutcome :=
  if level < lg.minimumLogLevel then LogOutcome.completed none st
  else
    let fullLog := formatLog lg timestamp level message details
    if faults.consoleThrows then
      LogOutcome.threw "console write failed" none st
    else
      let consoleOut := consoleLog lg level fullLog
      if lg.logToFile then
        if lg.fileWriteStream then
          if faults.fileThrows then
            LogOutcome.threw "file write failed" (some consoleOut) st
          else
            LogOutcome.completed (some consoleOut) (fileLog lg st fullLog)
        else LogOutcome.completed (some consoleOut) st
      else LogOutcome.completed (some consoleOut) st

/-- Errors `setupLogDirectory` can raise: `fs.mkdirSync` failing, or
`fs.createWriteStream` failing to open the file. -/
inductive FsError where
  | mkdirFailed
  | openFailed
deriving DecidableEq, Repr

/-- The filesystem environment the constructor runs against: the home
directory string and whether the two effectful calls succeed. `mkdirOk`
covers both the directory already existing and `mkdirSync` succeeding. -/
structure FsEnv where
  homedir : String
  mkdirOk : Bool := true
  openOk : Bool := true
deriving DecidableEq, Repr

/-- The constructor options object with its default values
(source lines 54–66). -/
structure LoggerOptions where
  loggerName : String
  timezone : String := "UTC"
  timestampPadding : Nat := 30
  logLevelPadding : Nat := 10
  filePathPadding : Nat := 30
  colorful : Bool := true
  minimumLogLevel : Int := PieLogLevel.INFO
  logToFile : Bool := true
  logDirectory : String := "logs"
  logFileSizeLimit : Nat := 32 * 1024 * 1024
  maxBackupFiles : Nat := 2
deriving DecidableEq, Repr

/-- Model of `path.join` restricted to the plain relative segments the source joins
(no normalization is exercised). -/
def pathJoin (a b : String) : String := a ++ "/" ++ b

/-- The `.replace(/:/g, "-")` applied to the ISO timestamp
(source line 78). -/
def replaceColons (s : String) : String :=
  String.mk (s.data.map (fun c => if c = ':' then '-' else c))

/-- Model of `PieLogger.setupLogDirectory` (source lines 89–105): build
`homedir/logDirectory/startTimestamp`, create it (throwing on failure), then
open `loggerName-startTimestamp.log` inside it in append mode (throwing on
failure). Returns the file path and the opened-stream flag. -/
def setupLogDirectory (env : FsEnv) (logDirectory startTimestamp
    loggerName : String) : Except FsError (String × Bool) :=
  let logDir := pathJoin (pathJoin env.homedir logDirectory) startTimestamp
  if !env.mkdirOk then Except.error FsError.mkdirFailed
  else
    let logFilePath :=
      pathJoin logDir (loggerName ++ "-" ++ startTimestamp ++ ".log")
    if !env.openOk then Except.error FsError.openFailed
    else Except.ok (logFilePath, true)

/-- The field assignments of the constructor body before the
`setupLogDirectory` call (source lines 67–78): every option copied onto the
instance, `startTimestamp` computed from the ISO timestamp with colons
replaced by hyphens, and the two setup-assigned fields still unset. -/
def baseLogger (opts : LoggerOptions) (isoNow : String) : PieLogger :=
  { loggerName := opts.loggerName
    timezone := opts.timezone
    timestampPadding := opts.timestampPadding
    logLevelPadding := opts.logLevelPadding
    filePathPadding := opts.filePathPadding
    colorful := opts.colorful
    minimumLogLevel := opts.minimumLogLevel
    logToFile := opts.logToFile
    logDirectory := opts.logDirectory
    logFileSizeLimit := opts.logFileSizeLimit
    maxBackupFiles := opts.maxBackupFiles
    startTimestamp := replaceColons isoNow
    logFilePath := none
    fileWriteStream := false }

/-- The `PieLogger` constructor (source lines 54–83): assign every option,
then call `setupLogDirectory` when `logToFile`. The body has no try/catch,
so an exception from `setupLogDirectory` propagates and no instance is
produced. -/
def PieLogger.make (opts : LoggerOptions) (isoNow : String) (env : FsEnv) :
    Except FsError PieLogger :=
  if opts.logToFile then
    match setupLogDirectory env opts.logDirectory (replaceColons isoNow)
        opts.loggerName with
    | Except.error e => Except.error e
    | Except.ok (p, s) =>
        Except.ok { baseLogger opts isoNow with
          logFilePath := some p, fileWriteStream := s }
  else Except.ok (baseLogger opts isoNow)

/-- One emission request: the arguments a caller passes to `log`, together
with the timestamp `getTimestamp` would produce at that moment. -/
structure LogEvent where
  timestamp : String
  level : Int
  message : String
  details : Option String := none
deriving DecidableEq, Repr

/-- The formatted chunk `fileLog` appends to the file for an event. -/
def fileChunk (lg : PieLogger) (e : LogEvent) : String :=
  formatLog lg e.timestamp e.level e.message e.details ++ "\n"

/-- One emission step threading the (immutable after construction) logger
and the file state; `log` assigns no instance field, so the logger component
is returned unchanged. -/
def emitStep (lg : PieLogger) (st : FileState) (e : LogEvent) : FileState :=
  (log lg st e.timestamp e.level e.message e.details).2

/-- Run a sequence of emissions against one logger instance. -/
def emitAll (lg : PieLogger) (st : FileState) (events : List LogEvent) :
    FileState :=
  List.foldl (emitStep lg) st events

/-- The rotated file set read in rotation order (oldest backup generation
first) then append order within each file. -/
def fileSetLines (st : FileState) : List String :=
  st.backups.reverse.flatten ++ st.currentFile

/-- Bytes of one write, as Node encodes the string (UTF-8). -/
def writeBytes (s : String) : Nat := s.utf8ByteSize

/-- Cumulative bytes present in the current file. -/
def fileBytes (st : FileState) : Nat := (st.currentFile.map writeBytes).sum

/-- Total encoded bytes a sequence of above-threshold emissions writes. -/
def totalBytes (lg : PieLogger) (events : List LogEvent) : Nat :=
  (events.map (fun e => writeBytes (fileChunk lg e))).sum

/-- One emission on the pair (instance, file state). The method bodies of
`log`, `consoleLog` and `fileLog` assign no instance field, so the instance
component passes through unchanged — this is the code fact behind the
"never changes for the lifetime of the instance" claims. -/
def emitFull (p : PieLogger × FileState) (e : LogEvent) :
    PieLogger × FileState :=
  (p.1, emitStep p.1 p.2 e)

/-- The instance the constructor produces when `logToFile` is set and both
filesystem calls succeed (the `Except.ok` payload of `PieLogger.make`). -/
def sessionLogger (opts : LoggerOptions) (isoNow : String) (env : FsEnv) :
    PieLogger :=
  { baseLogger opts isoNow with
    logFilePath := some (pathJoin
      (pathJoin (pathJoin env.homedir opts.logDirectory) (replaceColons isoNow))
      (opts.loggerName ++ "-" ++ replaceColons isoNow ++ ".log"))
    fileWriteStream := true }

/-- Concrete instance for the rotation scenario of claim C1: size limit 100
bytes, 2 backup files allowed, paddings chosen so an INFO line with a
20-character message encodes to exactly 40 bytes. -/
def lgC1 : PieLogger :=
  { loggerName := "L"
    timestampPadding := 8
    logLevelPadding := 4
    filePathPadding := 3
    minimumLogLevel := PieLogLevel.INFO
    logToFile := true
    logFileSizeLimit := 100
    maxBackupFiles := 2
    startTimestamp := "s"
    logFilePath := some "p"
    fileWriteStream := true }

/-- Three 40-byte INFO emissions for the C1 scenario. -/
def eventsC1 : List LogEvent :=
  [⟨"t1", 20, "aaaaaaaaaaaaaaaaaaaa", none⟩,
   ⟨"t2", 20, "bbbbbbbbbbbbbbbbbbbb", none⟩,
   ⟨"t3", 20, "cccccccccccccccccccc", none⟩]

/-- Concrete instance for the order-preservation witness of claim C2. -/
def lgC2 : PieLogger :=
  { loggerName := "W"
    timestampPadding := 4
    logLevelPadding := 4
    filePathPadding := 3
    startTimestamp := "s"
    logToFile := true
    logFilePath := some "p"
    fileWriteStream := true }

/-- Two above-threshold emissions for the C2 witness. -/
def eventsC2 : List LogEvent :=
  [⟨"t1", 20, "one", none⟩, ⟨"t2", 40, "two", none⟩]

/-- Concrete instance for the maxBackupFiles = 0 scenario of claim C3: size
limit 10 bytes, so the very first write (14 bytes) already exceeds it. -/
def lgC3 : PieLogger :=
  { loggerName := "L"
    timestampPadding := 1
    logLevelPadding := 1
    filePathPadding := 1
    logToFile := true
    logFileSizeLimit := 10
    maxBackupFiles := 0
    startTimestamp := "s"
    logFilePath := some "p"
    fileWriteStream := true }

/-- Two emissions for the C3 scenario, each encoding to 14 bytes. -/
def eventsC3 : List LogEvent :=
  [⟨"t", 20, "m", none⟩, ⟨"u", 20, "n", none⟩]

/-- A default-configured logger instance (minimum level INFO) used by the
filter and sink witnesses; its stream was opened. -/
def lgDefault : PieLogger :=
  { loggerName := "L"
    startTimestamp := "s"
    logFilePath := some "p"
    fileWriteStream := true }

/-- A logger with `logToFile` left enabled but whose write stream was never
opened (`fileWriteStream` is `false`, as when `setupLogDirectory` never
ran), used for claim C10. -/
def lgNoStream : PieLogger :=
  { loggerName := "L"
    startTimestamp := "s" }

/-- A logger with colorization disabled, for the C8 witness. -/
def lgMono : PieLogger :=
  { loggerName := "L"
    colorful := false
    startTimestamp := "s" }

/-- Appending strings is associative (used to relate the nested `path.join`
calls of the code to the flat on-disk layout the spec describes). -/
theorem string_append_assoc (a b c : String) :
    a ++ b ++ c = a ++ (b ++ c) := by
  apply String.ext
  simp [String.data_append, List.append_assoc]

/-- The instance component of a fold of emissions never changes: no method
of the class assigns an instance field after construction. -/
theorem foldl_emitFull_fst (p : PieLogger × FileState)
    (events : List LogEvent) : (List.foldl emitFull p events).1 = p.1 := by
  induction events generalizing p with
  | nil => rfl
  | cons e es ih =>
      rw [List.foldl_cons]
      exact ih (emitFull p e)

/-- A single above-threshold emission appends exactly one chunk to the
current file and leaves the backups untouched. -/
theorem emitStep_above (lg : PieLogger) (st : FileState) (e : LogEvent)
    (he : lg.minimumLogLevel ≤ e.level) (hfile : lg.logToFile = true)
    (hstream : lg.fileWriteStream = true) :
    emitStep lg st e =
      { st with currentFile := st.currentFile ++ [fileChunk lg e] } := by
  simp [emitStep, log, not_lt.mpr he, hfile, fileLog, hstream, fileChunk]

/-- Above-threshold emissions against an open stream only ever append to
the current file, in call order; the backup list is never touched (the
source has no rotation step at all). -/
theorem emitAll_above (lg : PieLogger) (events : List LogEvent)
    (hmin : ∀ e ∈ events, lg.minimumLogLevel ≤ e.level)
    (hfile : lg.logToFile = true) (hstream : lg.fileWriteStream = true) :
    ∀ st : FileState, emitAll lg st events =
      { currentFile := st.currentFile ++ events.map (fileChunk lg),
        backups := st.backups } := by
  induction events with
  | nil => intro st; simp [emitAll]
  | cons e es ih =>
      intro st
      rw [emitAll, List.foldl_cons,
        emitStep_above lg st e (hmin e (List.mem_cons_self e es)) hfile
          hstream]
      have hes := ih (fun e' he' => hmin e' (List.mem_cons_of_mem e he'))
      rw [show List.foldl (emitStep lg)
          { st with currentFile := st.currentFile ++ [fileChunk lg e] } es =
        emitAll lg { st with
          currentFile := st.currentFile ++ [fileChunk lg e] } es from rfl,
        hes]
      simp

/-- Helper: outside the five defined levels the color lookup misses. -/
theorem colorMapping_eq_none (level : Int)
    (h : level ∉ ([10, 20, 30, 40, 50] : List Int)) :
    colorMapping level = none := by
  simp only [List.mem_cons, List.not_mem_nil, or_false, not_or] at h
  obtain ⟨h1, h2, h3, h4, h5⟩ := h
  simp [colorMapping, PieLogLevel.DEBUG, PieLogLevel.INFO,
    PieLogLevel.WARNING, PieLogLevel.ERROR, PieLogLevel.CRITICAL,
    h1, h2, h3, h4, h5]

/-- Claim C1 (evaluation of the code at the claim's scenario): with a
100-byte size limit and maxBackupFiles = 2, three 40-byte INFO emissions
put 120 bytes in the current file — yet the sink never rotates: all three
lines stay in the current file and no backup generation exists, although
the cumulative bytes exceed the configured limit. The source keeps no byte
counter and contains no rotation code. -/
theorem C1_rotation_not_implemented :
    eventsC1.map (fun e => writeBytes (fileChunk lgC1 e)) = [40, 40, 40] ∧
    fileBytes (emitAll lgC1 {} eventsC1) = 120 ∧
    lgC1.logFileSizeLimit = 100 ∧
    (emitAll lgC1 {} eventsC1).backups = [] ∧
    (emitAll lgC1 {} eventsC1).currentFile = eventsC1.map (fileChunk lgC1) :=
  ⟨rfl, rfl, rfl, rfl, rfl⟩

/-- Claim C2: for a single sequential caller emitting at-or-above-threshold
records, the lines of the rotated file set, read in rotation order then
append order, are exactly the emitted formatted lines in call order — no
loss, no reordering — given the total-bytes bound of the claim. -/
theorem C2_order_preserved (lg : PieLogger) (events : List LogEvent)
    (hmin : ∀ e ∈ events, lg.minimumLogLevel ≤ e.level)
    (hfile : lg.logToFile = true) (hstream : lg.fileWriteStream = true)
    (_hbound : totalBytes lg events ≤
      (lg.maxBackupFiles + 1) * lg.logFileSizeLimit) :
    fileSetLines (emitAll lg {} events) = events.map (fileChunk lg) := by
  rw [emitAll_above lg events hmin hfile hstream {}]
  simp [fileSetLines]

/-- Witness for C2 at a concrete logger and two emissions. -/
theorem C2_order_preserved_witness :
    fileSetLines (emitAll lgC2 {} eventsC2) = eventsC2.map (fileChunk lgC2) :=
  C2_order_preserved lgC2 eventsC2 (by decide) rfl rfl (by decide)

/-- Claim C3 (evaluation of the code at the claim's scenario): with
maxBackupFiles = 0 and a 10-byte size limit, the first 14-byte emission
already reaches the limit, yet the second emission still finds the first
line in place: the current file is never truncated or replaced, and no
backup file is ever created — no rotation of any kind exists in the
source. -/
theorem C3_rotation_never_occurs :
    lgC3.maxBackupFiles = 0 ∧
    lgC3.logFileSizeLimit = 10 ∧
    lgC3.logFileSizeLimit ≤
      fileBytes (emitAll lgC3 {} [⟨"t", 20, "m", none⟩]) ∧
    (emitAll lgC3 {} eventsC3).currentFile = eventsC3.map (fileChunk lgC3) ∧
    (emitAll lgC3 {} eventsC3).backups = [] :=
  ⟨rfl, rfl, by decide, rfl, rfl⟩

/-- Claim C4: log emits iff level ≥ minimumLogLevel — below the minimum the
call returns with no console output and the file state untouched; at or
above the minimum (including exactly at it) a console write occurs. -/
theorem C4_level_filter (lg : PieLogger) (st : FileState) (ts : String)
    (level : Int) (msg : String) (d : Option String) :
    (level < lg.minimumLogLevel → log lg st ts level msg d = (none, st)) ∧
    (lg.minimumLogLevel ≤ level →
      ((log lg st ts level msg d).1).isSome = true) := by
  constructor
  · intro h; simp [log, h]
  · intro h; simp [log, not_lt.mpr h]

/-- Witness for C4: DEBUG (10) below the default INFO minimum (20) is
dropped with no state change; a record exactly at the minimum is emitted. -/
theorem C4_level_filter_witness :
    log lgDefault {} "t" 10 "m" none = (none, {}) ∧
    ((log lgDefault {} "t" 20 "m" none).1).isSome = true :=
  ⟨(C4_level_filter lgDefault {} "t" 10 "m" none).1 (by decide),
   (C4_level_filter lgDefault {} "t" 20 "m" none).2 (by decide)⟩

/-- Counterexample to claim C5: with file logging enabled and a failing
directory creation, the constructor propagates the exception — construction
does not complete with file logging disabled; it aborts with an error. -/
theorem C5_construction_aborts :
    PieLogger.make { loggerName := "L" } "2024-01-01T00:00:00.000Z"
      { homedir := "/home/u", mkdirOk := false } =
      Except.error FsError.mkdirFailed := rfl

/-- Claim C5 amended: a construction-time filesystem failure with logToFile
enabled propagates out of the constructor (directory-creation failure, or
file-open failure), aborting construction entirely; only with logToFile
disabled does construction complete with file logging off — and such an
instance still performs console writes for above-threshold records. -/
theorem C5_construction_failure (opts : LoggerOptions) (isoNow : String)
    (env : FsEnv) :
    (opts.logToFile = true → env.mkdirOk = false →
      PieLogger.make opts isoNow env = Except.error FsError.mkdirFailed) ∧
    (opts.logToFile = true → env.mkdirOk = true → env.openOk = false →
      PieLogger.make opts isoNow env = Except.error FsError.openFailed) ∧
    (opts.logToFile = false →
      PieLogger.make opts isoNow env = Except.ok (baseLogger opts isoNow) ∧
      (baseLogger opts isoNow).fileWriteStream = false ∧
      (baseLogger opts isoNow).logFilePath = none ∧
      ∀ (st : FileState) (ts : String) (level : Int) (msg : String)
        (d : Option String), (baseLogger opts isoNow).minimumLogLevel ≤ level →
        ((log (baseLogger opts isoNow) st ts level msg d).1).isSome = true) := by
  refine ⟨?_, ?_, ?_⟩
  · intro h1 h2
    simp [PieLogger.make, setupLogDirectory, h1, h2]
  · intro h1 h2 h3
    simp [PieLogger.make, setupLogDirectory, h1, h2, h3]
  · intro h1
    refine ⟨by simp [PieLogger.make, h1], rfl, rfl, ?_⟩
    intro st ts level msg d hl
    simp [log, not_lt.mpr hl]

/-- Witness for C5's amended statement: a failing file open aborts a
concrete construction. -/
theorem C5_construction_failure_witness :
    PieLogger.make { loggerName := "L" } "2024-01-02T03:04:05.000Z"
      { homedir := "/h", openOk := false } =
      Except.error FsError.openFailed :=
  (C5_construction_failure { loggerName := "L" } "2024-01-02T03:04:05.000Z"
    { homedir := "/h", openOk := false }).2.1 rfl rfl rfl

/-- Counterexample to claim C6: a throwing console write escapes the log
call (the outcome is a throw, not completion), and the file sink — enabled,
with an open stream — never runs: the file state is unchanged. -/
theorem C6_error_escapes :
    logExc lgDefault { consoleThrows := true } {} "t" 20 "m" none =
      LogOutcome.threw "console write failed" none {} := rfl

/-- Claim C6 amended: the source catches nothing — an error raised by
either sink escapes the facade's log call; a console sink failure prevents
the file sink from running (the file state is exactly the pre-call state
when the exception escapes), and a file sink failure escapes after the
console write already happened. -/
theorem C6_sink_errors_propagate (lg : PieLogger) (st : FileState)
    (ts : String) (level : Int) (msg : String) (d : Option String)
    (hlvl : lg.minimumLogLevel ≤ level) :
    (∀ faults : SinkFaults, faults.consoleThrows = true →
      logExc lg faults st ts level msg d =
        LogOutcome.threw "console write failed" none st) ∧
    (∀ faults : SinkFaults, faults.consoleThrows = false →
      faults.fileThrows = true → lg.logToFile = true →
      lg.fileWriteStream = true →
      logExc lg faults st ts level msg d =
        LogOutcome.threw "file write failed"
          (some (consoleLog lg level (formatLog lg ts level msg d))) st) := by
  constructor
  · intro faults hc
    simp [logExc, not_lt.mpr hlvl, hc]
  · intro faults hc hf h1 h2
    simp [logExc, not_lt.mpr hlvl, hc, hf, h1, h2]

/-- Witness for C6's amended statement at concrete inputs: a console throw
escapes before the file write; a file throw escapes after the console
write. -/
theorem C6_sink_errors_propagate_witness :
    logExc lgDefault { consoleThrows := true } {} "t" 30 "m" none =
      LogOutcome.threw "console write failed" none {} ∧
    logExc lgDefault { fileThrows := true } {} "t" 30 "m" none =
      LogOutcome.threw "file write failed"
        (some (consoleLog lgDefault 30 (formatLog lgDefault "t" 30 "m" none)))
        {} :=
  ⟨(C6_sink_errors_propagate lgDefault {} "t" 30 "m" none (by decide)).1
      { consoleThrows := true } rfl,
   (C6_sink_errors_propagate lgDefault {} "t" 30 "m" none (by decide)).2
      { fileThrows := true } rfl rfl rfl rfl⟩

/-- Claim C7: with file logging enabled and a healthy filesystem,
construction computes the log file path once, as
homedir/logDirectory/sessionTs/loggerName-sessionTs.log where sessionTs is
the ISO timestamp with colons replaced by hyphens; the configured log
directory defaults to "logs"; and no sequence of emissions ever changes the
instance, hence neither the session directory nor the file name. -/
theorem C7_log_file_path (opts : LoggerOptions) (isoNow : String)
    (env : FsEnv) (hfile : opts.logToFile = true)
    (hmkdir : env.mkdirOk = true) (hopen : env.openOk = true) :
    PieLogger.make opts isoNow env =
      Except.ok (sessionLogger opts isoNow env) ∧
    (sessionLogger opts isoNow env).logFilePath =
      some (env.homedir ++ "/" ++ opts.logDirectory ++ "/" ++
        replaceColons isoNow ++ "/" ++ opts.loggerName ++ "-" ++
        replaceColons isoNow ++ ".log") ∧
    (∀ name : String,
      ({ loggerName := name } : LoggerOptions).logDirectory = "logs") ∧
    ∀ (st : FileState) (events : List LogEvent),
      (List.foldl emitFull (sessionLogger opts isoNow env, st) events).1 =
        sessionLogger opts isoNow env := by
  refine ⟨?_, ?_, fun name => rfl,
    fun st events => foldl_emitFull_fst (sessionLogger opts isoNow env, st)
      events⟩
  · simp [PieLogger.make, setupLogDirectory, hfile, hmkdir, hopen,
      sessionLogger]
  · simp [sessionLogger, pathJoin, string_append_assoc]

/-- Witness for C7: a concrete construction yields the expected literal
path, and an emission leaves the instance unchanged. -/
theorem C7_log_file_path_witness :
    PieLogger.make { loggerName := "app" } "2024-05-06T07:08:09.000Z"
        { homedir := "/home/u" } =
      Except.ok (sessionLogger { loggerName := "app" }
        "2024-05-06T07:08:09.000Z" { homedir := "/home/u" }) ∧
    (sessionLogger { loggerName := "app" } "2024-05-06T07:08:09.000Z"
        { homedir := "/home/u" }).logFilePath =
      some
        "/home/u/logs/2024-05-06T07-08-09.000Z/app-2024-05-06T07-08-09.000Z.log" ∧
    (List.foldl emitFull (sessionLogger { loggerName := "app" }
        "2024-05-06T07:08:09.000Z" { homedir := "/home/u" }, {})
        [⟨"t", 20, "m", none⟩]).1 =
      sessionLogger { loggerName := "app" } "2024-05-06T07:08:09.000Z"
        { homedir := "/home/u" } := by
  obtain ⟨h1, h2, h3, h4⟩ := C7_log_file_path { loggerName := "app" }
    "2024-05-06T07:08:09.000Z" { homedir := "/home/u" } rfl rfl rfl
  exact ⟨h1, by rw [h2]; rfl, h4 {} [⟨"t", 20, "m", none⟩]⟩

/-- Claim C8: with colorization on, each of the five severities maps to its
own distinct chalk color; any other severity falls back to the single
default rendering chalk.white; with colorization off the message passes
through unmodified. -/
theorem C8_console_colorization :
    (colorMapping PieLogLevel.DEBUG = some ChalkColor.cyan ∧
     colorMapping PieLogLevel.INFO = some ChalkColor.green ∧
     colorMapping PieLogLevel.WARNING = some ChalkColor.yellow ∧
     colorMapping PieLogLevel.ERROR = some ChalkColor.red ∧
     colorMapping PieLogLevel.CRITICAL = some ChalkColor.magenta ∧
     ([ChalkColor.cyan, ChalkColor.green, ChalkColor.yellow, ChalkColor.red,
       ChalkColor.magenta] : List ChalkColor).Nodup) ∧
    (∀ (lg : PieLogger) (level : Int) (msg : String), lg.colorful = true →
      level ∈ ([10, 20, 30, 40, 50] : List Int) →
      ∃ c : ChalkColor, colorMapping level = some c ∧
        consoleLog lg level msg = ConsoleOutput.wrapped c msg) ∧
    (∀ (lg : PieLogger) (level : Int) (msg : String), lg.colorful = true →
      level ∉ ([10, 20, 30, 40, 50] : List Int) →
      consoleLog lg level msg = ConsoleOutput.wrapped ChalkColor.white msg) ∧
    (∀ (lg : PieLogger) (level : Int) (msg : String), lg.colorful = false →
      consoleLog lg level msg = ConsoleOutput.raw msg) := by
  refine ⟨by decide, ?_, ?_, ?_⟩
  · intro lg level msg hc hmem
    simp only [List.mem_cons, List.not_mem_nil, or_false] at hmem
    rcases hmem with h | h | h | h | h <;> subst h
    · exact ⟨ChalkColor.cyan, rfl, by simp [consoleLog, hc, colorMapping,
        PieLogLevel.DEBUG]⟩
    · exact ⟨ChalkColor.green, rfl, by simp [consoleLog, hc, colorMapping,
        PieLogLevel.DEBUG, PieLogLevel.INFO]⟩
    · exact ⟨ChalkColor.yellow, rfl, by simp [consoleLog, hc, colorMapping,
        PieLogLevel.DEBUG, PieLogLevel.INFO, PieLogLevel.WARNING]⟩
    · exact ⟨ChalkColor.red, rfl, by simp [consoleLog, hc, colorMapping,
        PieLogLevel.DEBUG, PieLogLevel.INFO, PieLogLevel.WARNING,
        PieLogLevel.ERROR]⟩
    · exact ⟨ChalkColor.magenta, rfl, by simp [consoleLog, hc, colorMapping,
        PieLogLevel.DEBUG, PieLogLevel.INFO, PieLogLevel.WARNING,
        PieLogLevel.ERROR, PieLogLevel.CRITICAL]⟩
  · intro lg level msg hc hmem
    simp [consoleLog, hc, colorMapping_eq_none level hmem]
  · intro lg level msg hc
    simp [consoleLog, hc]

/-- Witness for C8 at concrete inputs: a mapped level, an unmapped level,
and colorization off. -/
theorem C8_console_colorization_witness :
    (∃ c : ChalkColor, colorMapping 30 = some c ∧
      consoleLog lgDefault 30 "m" = ConsoleOutput.wrapped c "m") ∧
    consoleLog lgDefault 35 "m" = ConsoleOutput.wrapped ChalkColor.white "m" ∧
    consoleLog lgMono 35 "m" = ConsoleOutput.raw "m" :=
  ⟨C8_console_colorization.2.1 lgDefault 30 "m" rfl (by decide),
   C8_console_colorization.2.2.1 lgDefault 35 "m" rfl (by decide),
   C8_console_colorization.2.2.2 lgMono 35 "m" rfl⟩

/-- Claim C9: getLevelStr is total — the five defined levels map to their
names, and every other input value maps to UNKNOWN instead of failing. -/
theorem C9_getLevelStr_total :
    PieLogLevel.getLevelStr 10 = "DEBUG" ∧
    PieLogLevel.getLevelStr 20 = "INFO" ∧
    PieLogLevel.getLevelStr 30 = "WARNING" ∧
    PieLogLevel.getLevelStr 40 = "ERROR" ∧
    PieLogLevel.getLevelStr 50 = "CRITICAL" ∧
    ∀ level : Int, level ∉ ([10, 20, 30, 40, 50] : List Int) →
      PieLogLevel.getLevelStr level = "UNKNOWN" := by
  refine ⟨rfl, rfl, rfl, rfl, rfl, ?_⟩
  intro level h
  simp only [List.mem_cons, List.not_mem_nil, or_false, not_or] at h
  obtain ⟨h1, h2, h3, h4, h5⟩ := h
  simp [PieLogLevel.getLevelStr, PieLogLevel.DEBUG, PieLogLevel.INFO,
    PieLogLevel.WARNING, PieLogLevel.ERROR, PieLogLevel.CRITICAL,
    h1, h2, h3, h4, h5]

/-- Witness for C9: an arbitrary numeric level outside the five still gets
the UNKNOWN label. -/
theorem C9_getLevelStr_total_witness :
    PieLogLevel.getLevelStr 7 = "UNKNOWN" :=
  C9_getLevelStr_total.2.2.2.2.2 7 (by decide)

/-- Claim C10: when no write stream exists, fileLog is a silent no-op — the
log call completes normally (even if a file write would have thrown), the
file state is untouched, and the console write still happens. -/
theorem C10_no_stream_noop (lg : PieLogger) (faults : SinkFaults)
    (st : FileState) (ts : String) (level : Int) (msg : String)
    (d : Option String) (hstream : lg.fileWriteStream = false)
    (hconsole : faults.consoleThrows = false)
    (hlvl : lg.minimumLogLevel ≤ level) :
    log lg st ts level msg d =
      (some (consoleLog lg level (formatLog lg ts level msg d)), st) ∧
    logExc lg faults st ts level msg d =
      LogOutcome.completed
        (some (consoleLog lg level (formatLog lg ts level msg d))) st := by
  constructor
  · simp [log, not_lt.mpr hlvl, fileLog, hstream]
  · by_cases hf : lg.logToFile <;>
      simp [logExc, not_lt.mpr hlvl, hconsole, hstream, hf]

/-- Witness for C10: logToFile enabled, no stream, and a file write that
would throw — the call still completes with the console output and an
unchanged file state. -/
theorem C10_no_stream_noop_witness :
    log lgNoStream {} "t" 20 "m" none =
      (some (consoleLog lgNoStream 20 (formatLog lgNoStream "t" 20 "m" none)),
        {}) ∧
    logExc lgNoStream { fileThrows := true } {} "t" 20 "m" none =
      LogOutcome.completed
        (some (consoleLog lgNoStream 20 (formatLog lgNoStream "t" 20 "m" none)))
        {} :=
  C10_no_stream_noop lgNoStream { fileThrows := true } {} "t" 20 "m" none
    rfl rfl (by decide)

end PieLog
